import Mathlib

/-!
Shallow embedding of `src/CanisterManager.ts` from the `canister-manager`
repository: a configuration-driven URL resolver for Internet Computer
canisters.  The TypeScript class holds five immutable fields set by the
constructor and exposes pure string-producing queries; the only ambient
state it reads is the browser `window` object (origin and user agent),
every access guarded by optional chaining.  We model the ambient context
as nested `Option`s mirroring `window?.location?.origin` and
`window?.navigator?.userAgent`, and each method as a function of the
configuration, the ambient context and the `canisterId` argument.
-/

namespace CanisterManager

/-- Does the character list start with the given pattern?  Auxiliary for
the embedding of JavaScript `String.prototype.includes`. -/
def startsWithChars : List Char → List Char → Bool
  | [], _ => true
  | _ :: _, [] => false
  | p :: ps, h :: hs => p == h && startsWithChars ps hs

/-- Does the pattern occur as a contiguous run inside the character list? -/
def hasSubChars (pat : List Char) : List Char → Bool
  | [] => startsWithChars pat []
  | h :: hs => startsWithChars pat (h :: hs) || hasSubChars pat hs

/-- Embedding of JavaScript `hay.includes(pat)`: substring containment. -/
def strIncludes (hay pat : String) : Bool :=
  hasSubChars pat.data hay.data

/-- Embedding of JavaScript `s.toLowerCase()` (character-wise lowering). -/
def strToLower (s : String) : String :=
  String.mk (s.data.map Char.toLower)

/-- Model of `window.location`: the `origin` property may be absent. -/
structure Location where
  origin : Option String

/-- Model of `window.navigator`: the `userAgent` property may be absent. -/
structure Navigator where
  userAgent : Option String

/-- Model of the browser `window` object; `location` and `navigator`
properties may each be absent.  The ambient context as a whole is an
`Option Window`, `none` meaning no `window` at all (non-browser host). -/
structure Window where
  location : Option Location
  navigator : Option Navigator

/-- Embedding of the guard expression
`window?.location?.origin?.includes('localhost')` used in boolean
position: optional chaining short-circuits to `undefined`, which is
falsy, so any absent link yields `false`. -/
def originIncludesLocalhost (w : Option Window) : Bool :=
  ((((w.bind Window.location).bind Location.origin).map
    (fun o => strIncludes o "localhost")).getD false)

/-- Embedding of `window?.navigator?.userAgent?.toLowerCase() || ''`:
any absent link in the chain yields the empty string. -/
def userAgentLowered (w : Option Window) : String :=
  (((w.bind Window.navigator).bind Navigator.userAgent).map strToLower).getD ""

/-- The five private fields of the `CanisterManager` class, as set by its
constructor (called with the TypeScript defaults already applied:
`replicaPort = 4943`, `canisterPort = 14943`,
`internetIdentityPort = 24943`). -/
structure CanisterManagerConfig where
  dfxNetwork : String
  localIPAddress : String
  replicaPort : Nat
  canisterPort : Nat
  internetIdentityPort : Nat

/-- Embedding of the constructor's defaulting of the three optional port
fields (`replicaPort = 4943`, `canisterPort = 14943`,
`internetIdentityPort = 24943`). -/
def mkConfig (dfxNetwork localIPAddress : String)
    (replicaPort canisterPort internetIdentityPort : Option Nat) :
    CanisterManagerConfig :=
  ⟨dfxNetwork, localIPAddress, replicaPort.getD 4943,
    canisterPort.getD 14943, internetIdentityPort.getD 24943⟩

/-- Embedding of `isLocalhostSubdomainSupported`: false unless the origin
chain contains `"localhost"`; then true exactly when the lower-cased
user agent contains `"chrome"`. -/
def isLocalhostSubdomainSupported (w : Option Window) : Bool :=
  if !(originIncludesLocalhost w) then
    false
  else
    let userAgent := userAgentLowered w
    if strIncludes userAgent "chrome" then
      true
    else
      false

/-- Embedding of `getLocalhostSubdomainCanisterURL`: always
`http://{canisterId}.localhost:{replicaPort}`, no branching. -/
def getLocalhostSubdomainCanisterURL (cfg : CanisterManagerConfig)
    (canisterId : String) : String :=
  "http://" ++ canisterId ++ ".localhost:" ++ toString cfg.replicaPort

/-- Embedding of `getBackendCanisterURL`. -/
def getBackendCanisterURL (cfg : CanisterManagerConfig) (w : Option Window)
    (canisterId : String) : String :=
  if cfg.dfxNetwork ≠ "local" then
    "https://" ++ canisterId ++ ".ic0.app"
  else if originIncludesLocalhost w then
    "http://localhost:" ++ toString cfg.replicaPort ++ "/?canisterId=" ++ canisterId
  else
    "https://" ++ cfg.localIPAddress ++ ":" ++ toString cfg.canisterPort
      ++ "/?canisterId=" ++ canisterId

/-- Embedding of `getFrontendCanisterURL`.  Note: the source returns the
`ic0.app` domain on the non-local branch, exactly as written in the
TypeScript, even though the repository README and CHANGELOG document
`icp0.io` for frontend URLs since v0.1.5. -/
def getFrontendCanisterURL (cfg : CanisterManagerConfig) (w : Option Window)
    (canisterId : String) : String :=
  if cfg.dfxNetwork ≠ "local" then
    "https://" ++ canisterId ++ ".ic0.app"
  else if isLocalhostSubdomainSupported w then
    getLocalhostSubdomainCanisterURL cfg canisterId
  else
    "https://" ++ cfg.localIPAddress ++ ":" ++ toString cfg.canisterPort
      ++ "/?canisterId=" ++ canisterId

/-- Embedding of `getInternetIdentityURL`. -/
def getInternetIdentityURL (cfg : CanisterManagerConfig) (w : Option Window)
    (canisterId : String) : String :=
  if cfg.dfxNetwork ≠ "local" then
    "https://identity.ic0.app"
  else if isLocalhostSubdomainSupported w then
    getLocalhostSubdomainCanisterURL cfg canisterId
  else
    "https://" ++ cfg.localIPAddress ++ ":" ++ toString cfg.internetIdentityPort
      ++ "/?canisterId=" ++ canisterId

/-- A fully populated ambient context: a window whose location has origin
`o` and whose navigator has user agent `a`. -/
def fullWindow (o a : String) : Option Window :=
  some ⟨some ⟨some o⟩, some ⟨some a⟩⟩

/-- Claim C1 (code divergence witness): the claim states that in
non-local (production) mode `getFrontendCanisterURL` returns
`https://{serviceId}.icp0.io`, as the repository README and the v0.1.5
CHANGELOG entry document; but the source at
`src/CanisterManager.ts:105-115` returns `https://{serviceId}.ic0.app`.
Evaluated at the failing input (dfxNetwork `"ic"`, canisterId `"abc"`,
no ambient context): the code yields the `ic0.app` URL and not the
documented `icp0.io` URL. -/
theorem frontendURL_production_uses_ic0app :
    getFrontendCanisterURL ⟨"ic", "192.168.0.210", 4943, 14943, 24943⟩ none "abc"
      = "https://abc.ic0.app"
    ∧ getFrontendCanisterURL ⟨"ic", "192.168.0.210", 4943, 14943, 24943⟩ none "abc"
      ≠ "https://abc.icp0.io" := by
  exact ⟨by decide, by decide⟩

/-- Claim C2: `isLocalhostSubdomainSupported` is true iff the ambient
origin contains `"localhost"` and the lower-cased user agent contains
`"chrome"`; in particular it is false for agents `"Safari"` and
`"Firefox"` even on localhost, and false for a non-localhost origin
even with a Chrome agent. -/
theorem isLocalhostSubdomainSupported_characterization (o a : String) :
    (isLocalhostSubdomainSupported (fullWindow o a)
      = (strIncludes o "localhost" && strIncludes (strToLower a) "chrome"))
    ∧ isLocalhostSubdomainSupported (fullWindow "http://localhost:3000" "Safari") = false
    ∧ isLocalhostSubdomainSupported (fullWindow "http://localhost:3000" "Firefox") = false
    ∧ isLocalhostSubdomainSupported (fullWindow "https://192.168.0.210:3000" "Chrome") = false := by
  refine ⟨?_, by decide, by decide, by decide⟩
  simp only [isLocalhostSubdomainSupported, originIncludesLocalhost, userAgentLowered, fullWindow,
    Option.bind_some, Option.map_some, Option.getD_some]
  cases h1 : strIncludes o "localhost" <;>
    cases h2 : strIncludes (strToLower a) "chrome" <;> simp [h1, h2]

/-- Claim C3: in local mode, `getBackendCanisterURL` returns
`http://localhost:{replicaPort}/?canisterId={id}` when the ambient
origin contains `"localhost"`, and
`https://{localIPAddress}:{canisterPort}/?canisterId={id}` otherwise
(including the case of an entirely absent ambient context). -/
theorem getBackendCanisterURL_local_branches (o a ip : String) (rp cp ii : Nat)
    (id : String) :
    (getBackendCanisterURL ⟨"local", ip, rp, cp, ii⟩ (fullWindow o a) id
      = if strIncludes o "localhost"
        then "http://localhost:" ++ toString rp ++ "/?canisterId=" ++ id
        else "https://" ++ ip ++ ":" ++ toString cp ++ "/?canisterId=" ++ id)
    ∧ getBackendCanisterURL ⟨"local", ip, rp, cp, ii⟩ none id
      = "https://" ++ ip ++ ":" ++ toString cp ++ "/?canisterId=" ++ id := by
  constructor
  · simp only [getBackendCanisterURL, originIncludesLocalhost, fullWindow,
      Option.bind_some, Option.map_some, Option.getD_some]
    simp
  · simp [getBackendCanisterURL, originIncludesLocalhost]

/-- Claim C4: in local mode, `getFrontendCanisterURL` returns exactly
`getLocalhostSubdomainCanisterURL id` when `isLocalhostSubdomainSupported`
holds, and `https://{localIPAddress}:{canisterPort}/?canisterId={id}`
otherwise; instantiated at the spec's example (localhost origin, Safari
agent) it yields `https://192.168.0.210:14943/?canisterId=abc`. -/
theorem getFrontendCanisterURL_local_branches (ip : String) (rp cp ii : Nat)
    (w : Option Window) (id : String) :
    (getFrontendCanisterURL ⟨"local", ip, rp, cp, ii⟩ w id
      = if isLocalhostSubdomainSupported w
        then getLocalhostSubdomainCanisterURL ⟨"local", ip, rp, cp, ii⟩ id
        else "https://" ++ ip ++ ":" ++ toString cp ++ "/?canisterId=" ++ id)
    ∧ getFrontendCanisterURL ⟨"local", "192.168.0.210", 4943, 14943, 24943⟩
        (fullWindow "http://localhost:3000" "Safari") "abc"
      = "https://192.168.0.210:14943/?canisterId=abc" := by
  exact ⟨by simp [getFrontendCanisterURL], by decide⟩

/-- Claim C5: in local mode, `getInternetIdentityURL` returns exactly
`getLocalhostSubdomainCanisterURL id` when `isLocalhostSubdomainSupported`
holds, and `https://{localIPAddress}:{internetIdentityPort}/?canisterId={id}`
otherwise. -/
theorem getInternetIdentityURL_local_branches (ip : String) (rp cp ii : Nat)
    (w : Option Window) (id : String) :
    getInternetIdentityURL ⟨"local", ip, rp, cp, ii⟩ w id
      = if isLocalhostSubdomainSupported w
        then getLocalhostSubdomainCanisterURL ⟨"local", ip, rp, cp, ii⟩ id
        else "https://" ++ ip ++ ":" ++ toString ii ++ "/?canisterId=" ++ id := by
  simp [getInternetIdentityURL]

/-- Claim C6: whenever `dfxNetwork` is not `"local"`,
`getBackendCanisterURL` returns `https://{id}.ic0.app`, for every
canister id and regardless of the ambient context. -/
theorem getBackendCanisterURL_production (cfg : CanisterManagerConfig)
    (w : Option Window) (id : String) (h : cfg.dfxNetwork ≠ "local") :
    getBackendCanisterURL cfg w id = "https://" ++ id ++ ".ic0.app" := by
  simp [getBackendCanisterURL, h]

/-- Witness for claim C6 at dfxNetwork `"production"`, no ambient
context, canister id `"abc"`. -/
theorem getBackendCanisterURL_production_witness :
    (CanisterManagerConfig.dfxNetwork ⟨"production", "192.168.0.210", 4943, 14943, 24943⟩
      ≠ "local")
    ∧ getBackendCanisterURL ⟨"production", "192.168.0.210", 4943, 14943, 24943⟩ none "abc"
      = "https://abc.ic0.app" :=
  ⟨by decide,
    getBackendCanisterURL_production ⟨"production", "192.168.0.210", 4943, 14943, 24943⟩
      none "abc" (by decide)⟩

/-- Claim C7: whenever `dfxNetwork` is not `"local"`,
`getInternetIdentityURL` returns the fixed string
`https://identity.ic0.app` for every canister id argument, so the result
does not depend on the canister id or the ambient context. -/
theorem getInternetIdentityURL_production (cfg : CanisterManagerConfig)
    (w : Option Window) (id : String) (h : cfg.dfxNetwork ≠ "local") :
    getInternetIdentityURL cfg w id = "https://identity.ic0.app" := by
  simp [getInternetIdentityURL, h]

/-- Witness for claim C7 at dfxNetwork `"production"`, no ambient
context, canister id `"anything"`. -/
theorem getInternetIdentityURL_production_witness :
    (CanisterManagerConfig.dfxNetwork ⟨"production", "192.168.0.210", 4943, 14943, 24943⟩
      ≠ "local")
    ∧ getInternetIdentityURL ⟨"production", "192.168.0.210", 4943, 14943, 24943⟩ none "anything"
      = "https://identity.ic0.app" :=
  ⟨by decide,
    getInternetIdentityURL_production ⟨"production", "192.168.0.210", 4943, 14943, 24943⟩
      none "anything" (by decide)⟩

/-- Claim C8: `getLocalhostSubdomainCanisterURL` returns
`http://{id}.localhost:{replicaPort}` for every configuration (in
particular for every `dfxNetwork` value) and every canister id; the
function takes no ambient context at all, so no browser or network-mode
check occurs inside the call. -/
theorem getLocalhostSubdomainCanisterURL_unconditional
    (cfg : CanisterManagerConfig) (id : String) :
    getLocalhostSubdomainCanisterURL cfg id
      = "http://" ++ id ++ ".localhost:" ++ toString cfg.replicaPort := rfl

/-- Claim C9: an absent or partially absent ambient context (no window,
no location, no origin, no navigator, or no userAgent) is tolerated:
`isLocalhostSubdomainSupported` returns `false` in every such case (the
embedded functions are total, so no error is raised), and in local mode
the three resolvers take the corresponding fallback branch. -/
theorem ambient_absence_graceful (lc : Option Location) (nv : Option Navigator)
    (ip : String) (rp cp ii : Nat) (id : String) :
    isLocalhostSubdomainSupported none = false
    ∧ isLocalhostSubdomainSupported (some ⟨none, nv⟩) = false
    ∧ isLocalhostSubdomainSupported (some ⟨some ⟨none⟩, nv⟩) = false
    ∧ isLocalhostSubdomainSupported (some ⟨lc, none⟩) = false
    ∧ isLocalhostSubdomainSupported (some ⟨lc, some ⟨none⟩⟩) = false
    ∧ getBackendCanisterURL ⟨"local", ip, rp, cp, ii⟩ none id
      = "https://" ++ ip ++ ":" ++ toString cp ++ "/?canisterId=" ++ id
    ∧ getFrontendCanisterURL ⟨"local", ip, rp, cp, ii⟩ none id
      = "https://" ++ ip ++ ":" ++ toString cp ++ "/?canisterId=" ++ id
    ∧ getInternetIdentityURL ⟨"local", ip, rp, cp, ii⟩ none id
      = "https://" ++ ip ++ ":" ++ toString ii ++ "/?canisterId=" ++ id := by
  refine ⟨by decide, ?_, ?_, ?_, ?_, ?_, ?_, ?_⟩
  · simp [isLocalhostSubdomainSupported, originIncludesLocalhost]
  · simp [isLocalhostSubdomainSupported, originIncludesLocalhost]
  · cases h : originIncludesLocalhost (some ⟨lc, none⟩)
    · simp [isLocalhostSubdomainSupported, h]
    · simp [isLocalhostSubdomainSupported, userAgentLowered, h]
      decide
  · cases h : originIncludesLocalhost (some ⟨lc, some ⟨none⟩⟩)
    · simp [isLocalhostSubdomainSupported, h]
    · simp [isLocalhostSubdomainSupported, userAgentLowered, h]
      decide
  · simp [getBackendCanisterURL, originIncludesLocalhost]
  · simp [getFrontendCanisterURL, isLocalhostSubdomainSupported, originIncludesLocalhost]
  · simp [getInternetIdentityURL, isLocalhostSubdomainSupported, originIncludesLocalhost]

/-- Claim C10: `dfxNetwork` is not restricted to two values; for every
string differing from the exact literal `"local"` (such as `"ic"`,
`"Local"`, `"staging"`, `""`), each of the three resolvers behaves
exactly as with the production network `"ic"` and the same remaining
configuration, regardless of ambient context on either side. -/
theorem nonlocal_network_behaves_as_production (cfg : CanisterManagerConfig)
    (w w' : Option Window) (id : String) (h : cfg.dfxNetwork ≠ "local") :
    getBackendCanisterURL cfg w id
      = getBackendCanisterURL
          ⟨"ic", cfg.localIPAddress, cfg.replicaPort, cfg.canisterPort,
            cfg.internetIdentityPort⟩ w' id
    ∧ getFrontendCanisterURL cfg w id
      = getFrontendCanisterURL
          ⟨"ic", cfg.localIPAddress, cfg.replicaPort, cfg.canisterPort,
            cfg.internetIdentityPort⟩ w' id
    ∧ getInternetIdentityURL cfg w id
      = getInternetIdentityURL
          ⟨"ic", cfg.localIPAddress, cfg.replicaPort, cfg.canisterPort,
            cfg.internetIdentityPort⟩ w' id := by
  refine ⟨?_, ?_, ?_⟩ <;>
    simp [getBackendCanisterURL, getFrontendCanisterURL, getInternetIdentityURL, h]

/-- Witness for claim C10 at dfxNetwork `"Local"` (differing from
`"local"` only in case), with a Chrome-on-localhost ambient context on
the left and no ambient context on the right. -/
theorem nonlocal_network_behaves_as_production_witness :
    (CanisterManagerConfig.dfxNetwork ⟨"Local", "10.0.0.2", 1, 2, 3⟩ ≠ "local")
    ∧ (getBackendCanisterURL ⟨"Local", "10.0.0.2", 1, 2, 3⟩
          (fullWindow "http://localhost:3000" "Chrome") "abc"
        = getBackendCanisterURL ⟨"ic", "10.0.0.2", 1, 2, 3⟩ none "abc"
      ∧ getFrontendCanisterURL ⟨"Local", "10.0.0.2", 1, 2, 3⟩
          (fullWindow "http://localhost:3000" "Chrome") "abc"
        = getFrontendCanisterURL ⟨"ic", "10.0.0.2", 1, 2, 3⟩ none "abc"
      ∧ getInternetIdentityURL ⟨"Local", "10.0.0.2", 1, 2, 3⟩
          (fullWindow "http://localhost:3000" "Chrome") "abc"
        = getInternetIdentityURL ⟨"ic", "10.0.0.2", 1, 2, 3⟩ none "abc") :=
  ⟨by decide,
    nonlocal_network_behaves_as_production ⟨"Local", "10.0.0.2", 1, 2, 3⟩
      (fullWindow "http://localhost:3000" "Chrome") none "abc" (by decide)⟩

end CanisterManager
